import Mathlib

/-!
Verification of the TestReportAnalyzer repository against its specification.

The repository is a PDF test-report analyzer: a backend extracts text from
uploaded PDF reports, scans it for PASS/FAIL test outcomes with bilingual
(English/Turkish) keyword matching, classifies failures against a signature
table, aggregates counts into a report summary, and stores rows in two SQLite
tables (`reports`, `test_results` with `ON DELETE CASCADE`).  A React frontend
(`src/frontend/src`) uploads files and renders labels.

The parsing/classification core itself is not present among the source files;
it is modelled here from the specification (each such definition carries a
doc comment starting with `Modelled from the spec:`).  The frontend functions
(`getReportStatusLabel`, `sanitizeFiles`) and the SQL schema are embedded
directly from the source.
-/

namespace TestReportAnalyzer

/-- Status of a parsed test record.  The SQL schema (`test_results.status`)
has `CHECK(status IN ('PASS', 'FAIL'))`, so exactly two values exist. -/
inductive Status where
  | PASS
  | FAIL
deriving DecidableEq, Repr

/-- TestRecord from the spec data model:
name, status, and three optional failure fields. -/
structure TestRecord where
  name : String
  status : Status
  error_message : Option String
  failure_reason : Option String
  suggested_fix : Option String
deriving DecidableEq, Repr

/-- ReportSummary from the spec data model:
filename plus the three counters. -/
structure ReportSummary where
  filename : String
  total_tests : Nat
  passed_tests : Nat
  failed_tests : Nat
deriving DecidableEq, Repr

/-- Modelled from the spec: keyword matching is case-insensitive.  Lowercases
ASCII letters and the Turkish uppercase letters that occur in the bilingual
status keywords. -/
def lowerChar (c : Char) : Char :=
  if c = 'Ç' then 'ç'
  else if c = 'Ğ' then 'ğ'
  else if c = 'İ' then 'i'
  else if c = 'Ö' then 'ö'
  else if c = 'Ş' then 'ş'
  else if c = 'Ü' then 'ü'
  else c.toLower

/-- Lowercase an entire character list for case-insensitive comparison. -/
def lowerStr (s : List Char) : List Char := s.map lowerChar

/-- Substring occurrence test on character lists: `isSub sub l` is true when
`sub` occurs contiguously inside `l`. -/
def isSub (sub : List Char) : List Char → Bool
  | [] => sub.isEmpty
  | c :: rest => List.isPrefixOf sub (c :: rest) || isSub sub (rest)

/-- Modelled from the spec: the PASS-class status keyword vocabulary
(English and Turkish), matched case-insensitively. -/
def passKeywords : List String :=
  ["PASS", "PASSED", "SUCCESS", "OK", "✓", "Başarılı", "Geçti", "Basarili", "Gecti"]

/-- Modelled from the spec: the FAIL-class status keyword vocabulary
(English and Turkish), matched case-insensitively. -/
def failKeywords : List String :=
  ["FAIL", "FAILED", "ERROR", "EXCEPTION", "✗", "Başarısız", "Kaldı", "Hata", "Basarisiz", "Kaldi"]

/-- A line contains some keyword of the given vocabulary, case-insensitively. -/
def hasKeywordFrom (kws : List String) (line : String) : Bool :=
  kws.any (fun k => isSub (lowerStr k.data) (lowerStr line.data))

/-- A line contains a PASS-class keyword. -/
def hasPassKeyword (line : String) : Bool := hasKeywordFrom passKeywords line

/-- A line contains a FAIL-class keyword. -/
def hasFailKeyword (line : String) : Bool := hasKeywordFrom failKeywords line

/-- A line contains a status keyword of either class. -/
def containsStatusKeyword (line : String) : Bool :=
  hasPassKeyword line || hasFailKeyword line

/-- Case-insensitive occurrence search: returns the original-case remainder of
`l` after the first occurrence of `marker` (given lowercased, nonempty). -/
def dropThroughCI (marker : List Char) : List Char → Option (List Char)
  | [] => none
  | c :: rest =>
      if List.isPrefixOf marker (lowerStr (c :: rest)) then
        some ((c :: rest).drop marker.length)
      else
        dropThroughCI marker (rest)

/-- Drop leading space characters. -/
def dropLeadingSpaces : List Char → List Char
  | ' ' :: rest => dropLeadingSpaces rest
  | l => l

/-- Trim spaces on both ends of a character list. -/
def trimChars (l : List Char) : List Char :=
  (dropLeadingSpaces (dropLeadingSpaces l.reverse).reverse)

/-- Modelled from the spec: ordered test-name pattern alternatives
(`Test: <name>`, `test_<identifier>`, `TEST - <name>`, `Senaryo: <name>`),
first match wins; otherwise the positional fallback name `Test N`. -/
def extractName (line : String) (counter : Nat) : String :=
  match dropThroughCI "test:".data line.data with
  | some r => String.mk (trimChars r)
  | none =>
    match dropThroughCI "test_".data line.data with
    | some r => String.mk ('t' :: 'e' :: 's' :: 't' :: '_' :: trimChars r)
    | none =>
      match dropThroughCI "test -".data line.data with
      | some r => String.mk (trimChars r)
      | none =>
        match dropThroughCI "senaryo:".data line.data with
        | some r => String.mk (trimChars r)
        | none => "Test " ++ toString counter

/-- Modelled from the spec: for a FAIL line, the error message is the
remainder of the line after the (first) FAIL keyword. -/
def errorRemainder (line : String) : String :=
  match failKeywords.findSome? (fun k => dropThroughCI (lowerStr k.data) line.data) with
  | some r => String.mk (trimChars r)
  | none => ""

/-- First non-empty line of a list, if any. -/
def firstNonEmpty (lines : List String) : Option String :=
  lines.find? (fun s => !s.isEmpty)

/-- Modelled from the spec: the Result Parser.  Scans lines in order; a line
produces a test entry exactly when it contains a status keyword; a line
containing a FAIL-class keyword (even together with a PASS-class keyword) is
classified FAIL; FAIL entries carry an error message taken from the remainder
of the line or, when empty, the next non-empty line; PASS entries leave all
three failure fields null; the running counter feeds the positional fallback
name. -/
def parseLines : List String → Nat → List TestRecord
  | [], _ => []
  | line :: rest, counter =>
    if hasFailKeyword line then
      let r := errorRemainder line
      let msg := if r.isEmpty then (firstNonEmpty rest).getD "" else r
      { name := extractName line counter, status := Status.FAIL,
        error_message := some msg, failure_reason := none, suggested_fix := none }
        :: parseLines rest (counter + 1)
    else if hasPassKeyword line then
      { name := extractName line counter, status := Status.PASS,
        error_message := none, failure_reason := none, suggested_fix := none }
        :: parseLines rest (counter + 1)
    else
      parseLines rest counter

/-- Parse a whole document, counter starting at 1. -/
def parseReport (lines : List String) : List TestRecord :=
  parseLines lines 1

/-- Modelled from the spec: the static, ordered FailureSignature table,
most specific patterns first, matched case-insensitively within the error
message; entries are (pattern, reason, suggested fix). -/
def failureSignatures : List (String × String × String) :=
  [ ("NullPointer", "Null referans hatası", "Nesnenin null olmadığını kontrol edin"),
    ("NullReference", "Null referans hatası", "Nesnenin null olmadığını kontrol edin"),
    ("Timeout", "Zaman aşımı", "Bekleme süresini artırın"),
    ("Zaman aşımı", "Zaman aşımı", "Bekleme süresini artırın"),
    ("Connection", "Bağlantı hatası", "Ağ bağlantısını kontrol edin"),
    ("Assertion", "Doğrulama hatası", "Beklenen değeri kontrol edin"),
    ("Exception", "Beklenmeyen istisna", "Yığın izini inceleyin") ]

/-- Modelled from the spec: the generic fallback (reason, fix) pair used when
no failure signature matches. -/
def fallbackClassification : String × String :=
  ("Belirtilmeyen hata", "Log kayıtlarını inceleyin")

/-- Modelled from the spec: the Failure Classifier.  First-match-wins scan of
the signature table, case-insensitive; degrades to the generic fallback pair
when nothing matches. -/
def classifyFailure (msg : String) : String × String :=
  match failureSignatures.find?
      (fun sig => isSub (lowerStr sig.1.data) (lowerStr msg.data)) with
  | some sig => (sig.2.1, sig.2.2)
  | none => fallbackClassification

/-- Modelled from the spec: the classifier enriches FAIL records with a
failure reason and suggested fix; PASS records are untouched. -/
def enrichRecord (r : TestRecord) : TestRecord :=
  match r.status with
  | Status.FAIL =>
    let c := classifyFailure (r.error_message.getD "")
    { r with failure_reason := some c.1, suggested_fix := some c.2 }
  | Status.PASS => r

/-- Enrich every record of a parse result. -/
def enrichAll (records : List TestRecord) : List TestRecord :=
  records.map enrichRecord

/-- Modelled from the spec: the Report Aggregator folds the record sequence
into a summary by counting statuses. -/
def summarize (filename : String) (records : List TestRecord) : ReportSummary :=
  { filename := filename,
    total_tests := records.length,
    passed_tests := records.countP (fun r => r.status == Status.PASS),
    failed_tests := records.countP (fun r => r.status == Status.FAIL) }

/-- Full in-memory pipeline on extracted text: parse, enrich, summarize. -/
def analyzeReport (filename : String) (lines : List String) :
    ReportSummary × List TestRecord :=
  let recs := enrichAll (parseReport lines)
  (summarize filename recs, recs)

/-- Modelled from the spec: the typed extraction failure; `NO_TEXT_LAYER`
marks a PDF with no extractable text layer. -/
inductive ExtractionError where
  | NO_TEXT_LAYER
deriving DecidableEq, Repr

/-- Modelled from the spec: a PDF document abstracted to its optional text
layer (an ordered line sequence); `none` means scanned/image-only. -/
structure PDFDocument where
  textLayer : Option (List String)
deriving DecidableEq, Repr

/-- Modelled from the spec: the Text Extractor yields the line sequence or
fails with an ExtractionError when the document has no text layer. -/
def extractText (doc : PDFDocument) : Except ExtractionError (List String) :=
  match doc.textLayer with
  | none => Except.error ExtractionError.NO_TEXT_LAYER
  | some lines => Except.ok lines

/-- Modelled from the spec: the whole upload pipeline; only an
ExtractionError crosses the boundary as a failure, every parsed outcome
(zero tests included) is a normal value. -/
def processDocument (filename : String) (doc : PDFDocument) :
    Except ExtractionError (ReportSummary × List TestRecord) :=
  match extractText doc with
  | Except.error e => Except.error e
  | Except.ok lines => Except.ok (analyzeReport filename lines)

/-- Row of the `reports` table (src SQL schema). -/
structure ReportRow where
  id : Nat
  filename : String
  total_tests : Nat
  passed_tests : Nat
  failed_tests : Nat
deriving DecidableEq, Repr

/-- Row of the `test_results` table (src SQL schema); `report_id` is the
foreign key into `reports` with ON DELETE CASCADE. -/
structure TestResultRow where
  id : Nat
  report_id : Nat
  test_name : String
  status : Status
  error_message : Option String
  failure_reason : Option String
  suggested_fix : Option String
deriving DecidableEq, Repr

/-- The relational store: the two tables of the src SQL schema. -/
structure Database where
  reports : List ReportRow
  test_results : List TestResultRow
deriving DecidableEq, Repr

/-- Modelled from the spec: deleting a report.  The DELETE endpoint handler
is not among the source files; the semantics follow the schema in src
(`FOREIGN KEY (report_id) REFERENCES reports(id) ON DELETE CASCADE`): the
report row and every child test_results row go together. -/
def deleteReport (db : Database) (rid : Nat) : Database :=
  { reports := db.reports.filter (fun r => r.id != rid),
    test_results := db.test_results.filter (fun t => t.report_id != rid) }

/-- A JavaScript value as far as the frontend report fields need:
a number, a string, `null`, or `undefined`. -/
inductive JSVal where
  | num (n : Int)
  | str (s : String)
  | nullv
  | undef
deriving DecidableEq, Repr

/-- The report object consumed by `getReportStatusLabel`
(src/frontend/src/utils/reportUtils.js): its three count fields, each an
arbitrary JS value. -/
structure JSReport where
  passed_tests : JSVal
  failed_tests : JSVal
  total_tests : JSVal
deriving DecidableEq, Repr

/-- Optional-chaining field access `report?.field`: `undefined` when the
report itself is null/undefined. -/
def getField (report : Option JSReport) (f : JSReport → JSVal) : JSVal :=
  match report with
  | none => JSVal.undef
  | some r => f r

/-- The JS nullish-coalescing operator `v ?? d`. -/
def nullishCoalesce (v d : JSVal) : JSVal :=
  match v with
  | JSVal.nullv => d
  | JSVal.undef => d
  | x => x

/-- Numeric parse of a string under JS `Number(...)`: the empty/whitespace
string is 0, an optionally signed digit string is its value, anything else
is NaN (`none`). -/
def numFromStr (s : String) : Option Int :=
  let t := trimChars s.data
  if t.isEmpty then some 0
  else if t.all Char.isDigit then
    some (Int.ofNat (t.foldl (fun acc c => acc * 10 + (c.toNat - 48)) 0))
  else
    match t with
    | '-' :: rest =>
      if !rest.isEmpty && rest.all Char.isDigit then
        some (-(Int.ofNat (rest.foldl (fun acc c => acc * 10 + (c.toNat - 48)) 0)))
      else none
    | _ => none

/-- JS `Number(...)` coercion; `none` models NaN. -/
def toNumber : JSVal → Option Int
  | JSVal.num n => some n
  | JSVal.str s => numFromStr s
  | JSVal.nullv => some 0
  | JSVal.undef => none

/-- JS strict comparison `x === 0`; false on NaN. -/
def jsEqZero (x : Option Int) : Bool := x == some 0

/-- JS comparison `x > 0`; false on NaN. -/
def jsPositive (x : Option Int) : Bool :=
  match x with
  | some n => decide (0 < n)
  | none => false

/-- The `passed` local of getReportStatusLabel: `Number(report?.passed_tests ?? 0)`. -/
def passedNumber (report : Option JSReport) : Option Int :=
  toNumber (nullishCoalesce (getField report JSReport.passed_tests) (JSVal.num 0))

/-- The `failed` local of getReportStatusLabel: `Number(report?.failed_tests ?? 0)`. -/
def failedNumber (report : Option JSReport) : Option Int :=
  toNumber (nullishCoalesce (getField report JSReport.failed_tests) (JSVal.num 0))

/-- The total count as read inside the first branch:
`Number(report?.total_tests ?? 0)`. -/
def totalNumber (report : Option JSReport) : Option Int :=
  toNumber (nullishCoalesce (getField report JSReport.total_tests) (JSVal.num 0))

/-- getReportStatusLabel from src/frontend/src/utils/reportUtils.js. -/
def getReportStatusLabel (report : Option JSReport) : String :=
  let passed := passedNumber report
  let failed := failedNumber report
  if jsEqZero failed && (jsPositive passed || jsPositive (totalNumber report)) then
    "Başarılı"
  else if jsPositive failed && jsEqZero passed then
    "Başarısız"
  else if jsPositive passed && jsPositive failed then
    "Kısmi Başarı"
  else
    "Analiz Bekleniyor"

/-- A browser File as far as sanitizeFiles reads it: its name and MIME type. -/
structure BrowserFile where
  name : String
  type : String
deriving DecidableEq, Repr

/-- Result shape of sanitizeFiles: the accepted files and an optional error. -/
structure SanitizeResult where
  files : List BrowserFile
  error : Option String
deriving DecidableEq, Repr

/-- MAX_FILES from src/frontend/src/components/UploadForm.js. -/
def MAX_FILES : Nat := 2

/-- MAX_FILES_MESSAGE from src/frontend/src/components/UploadForm.js. -/
def MAX_FILES_MESSAGE : String := "En fazla 2 pdf yükleyebilirsiniz!"

/-- sanitizeFiles from src/frontend/src/components/UploadForm.js; `none` as
input models a nullish fileList (`Array.from(fileList ?? [])`). -/
def sanitizeFiles (fileList : Option (List BrowserFile)) : SanitizeResult :=
  let incomingFiles := fileList.getD []
  if incomingFiles.isEmpty then
    { files := [], error := some "Lütfen en az bir PDF seçin." }
  else
    let nonPdfFiles := incomingFiles.filter (fun f => f.type != "application/pdf")
    if !nonPdfFiles.isEmpty then
      { files := [], error := some "Yalnızca PDF formatındaki raporları yükleyebilirsiniz." }
    else if incomingFiles.length > MAX_FILES then
      { files := [], error := some MAX_FILES_MESSAGE }
    else
      { files := incomingFiles, error := none }

/-! ### Helper lemmas -/

/-- Counting PASS records and FAIL records partitions any record list. -/
theorem countP_pass_add_fail (records : List TestRecord) :
    records.countP (fun r => r.status == Status.PASS)
      + records.countP (fun r => r.status == Status.FAIL) = records.length := by
  induction records with
  | nil => rfl
  | cons r rest ih =>
    cases h : r.status <;>
      simp [List.countP_cons, h, ← ih] <;> omega

/-- The number of parsed entries equals the number of lines that contain a
status keyword, whatever the counter. -/
theorem parseLines_length (lines : List String) :
    ∀ counter : Nat,
      (parseLines lines counter).length
        = (lines.filter containsStatusKeyword).length := by
  induction lines with
  | nil => intro c; rfl
  | cons line rest ih =>
    intro c
    by_cases hf : hasFailKeyword line
    · simp [parseLines, hf, containsStatusKeyword, List.filter_cons, ih]
    · by_cases hp : hasPassKeyword line
      · simp [parseLines, hf, hp, containsStatusKeyword, List.filter_cons, ih]
      · simp [parseLines, hf, hp, containsStatusKeyword, List.filter_cons, ih]

/-- Enriching preserves the status of a record. -/
theorem enrichRecord_status (r : TestRecord) :
    (enrichRecord r).status = r.status := by
  unfold enrichRecord
  cases h : r.status <;> simp [h]

/-- A line without any status keyword contributes no entry. -/
theorem parseLines_skip (line : String) (rest : List String) (counter : Nat)
    (h : containsStatusKeyword line = false) :
    parseLines (line :: rest) counter = parseLines rest counter := by
  have hp : hasPassKeyword line = false := by
    unfold containsStatusKeyword at h
    exact (Bool.or_eq_false_iff.mp h).1
  have hf : hasFailKeyword line = false := by
    unfold containsStatusKeyword at h
    exact (Bool.or_eq_false_iff.mp h).2
  simp [parseLines, hp, hf]

/-- Parsing a keyword-free document yields no records. -/
theorem parseLines_eq_nil (lines : List String)
    (h : ∀ line ∈ lines, containsStatusKeyword line = false) :
    ∀ counter : Nat, parseLines lines counter = [] := by
  induction lines with
  | nil => intro c; rfl
  | cons line rest ih =>
    intro c
    rw [parseLines_skip line rest c (h line (List.mem_cons_self line rest))]
    exact ih (fun l hl => h l (List.mem_cons_of_mem line hl)) c

/-- Every record produced by the parser with status PASS has all three
failure fields null. -/
theorem parseLines_pass_fields (lines : List String) :
    ∀ counter : Nat, ∀ r ∈ parseLines lines counter,
      r.status = Status.PASS →
        r.error_message = none ∧ r.failure_reason = none ∧ r.suggested_fix = none := by
  induction lines with
  | nil => intro c r hr; simp [parseLines] at hr
  | cons line rest ih =>
    intro c r hr hpass
    by_cases hf : hasFailKeyword line
    · simp [parseLines, hf] at hr
      rcases hr with hr | hr
      · rw [hr] at hpass; simp at hpass
      · exact ih (c + 1) r hr hpass
    · by_cases hp : hasPassKeyword line
      · simp [parseLines, hf, hp] at hr
        rcases hr with hr | hr
        · rw [hr]; exact ⟨rfl, rfl, rfl⟩
        · exact ih (c + 1) r hr hpass
      · simp [parseLines, hf, hp] at hr
        exact ih c r hr hpass

/-! ### Claim theorems -/

/-- C1: for every parsed report the summary satisfies
total_tests = passed_tests + failed_tests, total_tests is the number of
records, passed_tests the number of PASS records, and failed_tests the
number of FAIL records. -/
theorem report_summary_counts (filename : String) (lines : List String) :
    (analyzeReport filename lines).1.total_tests
        = (analyzeReport filename lines).1.passed_tests
          + (analyzeReport filename lines).1.failed_tests
    ∧ (analyzeReport filename lines).1.total_tests
        = (analyzeReport filename lines).2.length
    ∧ (analyzeReport filename lines).1.passed_tests
        = (analyzeReport filename lines).2.countP (fun r => r.status == Status.PASS)
    ∧ (analyzeReport filename lines).1.failed_tests
        = (analyzeReport filename lines).2.countP (fun r => r.status == Status.FAIL) := by
  refine ⟨?_, rfl, rfl, rfl⟩
  simp [analyzeReport, summarize]
  exact (countP_pass_add_fail (enrichAll (parseReport lines))).symm

/-- C8: a line yields a test entry exactly when it contains a PASS-class or
FAIL-class keyword (case-insensitively), so the number of entries equals the
number of keyword-bearing lines; on a single line the parser emits one entry
when a keyword of either vocabulary occurs and none otherwise. -/
theorem entry_iff_status_keyword :
    (∀ lines : List String, ∀ counter : Nat,
      (parseLines lines counter).length
        = (lines.filter containsStatusKeyword).length)
    ∧ (∀ line : String, ∀ counter : Nat,
        (parseLines [line] counter).length
          = if containsStatusKeyword line = true then 1 else 0) := by
  refine ⟨fun lines counter => parseLines_length lines counter, ?_⟩
  intro line counter
  rw [parseLines_length [line] counter]
  by_cases h : containsStatusKeyword line <;> simp [List.filter_cons, h]

/-- Every signature row carries a non-empty reason and a non-empty fix. -/
theorem failureSignatures_nonempty_fields :
    ∀ sig ∈ failureSignatures, sig.2.1 ≠ "" ∧ sig.2.2 ≠ "" := by decide

/-- C2: the failure classifier is total: every error message (the empty
string included) gets a non-empty (reason, fix) pair, and when no signature
of the table matches it returns exactly the generic fallback pair
("Belirtilmeyen hata", "Log kayıtlarını inceleyin"). -/
theorem classifier_total_with_fallback (msg : String) :
    ((classifyFailure msg).1 ≠ "" ∧ (classifyFailure msg).2 ≠ "")
    ∧ ((∀ sig ∈ failureSignatures,
          isSub (lowerStr sig.1.data) (lowerStr msg.data) = false) →
        classifyFailure msg = ("Belirtilmeyen hata", "Log kayıtlarını inceleyin")) := by
  constructor
  · unfold classifyFailure
    cases h : failureSignatures.find?
        (fun sig => isSub (lowerStr sig.1.data) (lowerStr msg.data)) with
    | none => simp [fallbackClassification]
    | some sig =>
      have hmem : sig ∈ failureSignatures := List.mem_of_find?_eq_some h
      have := failureSignatures_nonempty_fields sig hmem
      simpa using this
  · intro h
    unfold classifyFailure
    have hnone : failureSignatures.find?
        (fun sig => isSub (lowerStr sig.1.data) (lowerStr msg.data)) = none := by
      rw [List.find?_eq_none]
      intro sig hsig
      simp [h sig hsig]
    rw [hnone]
    rfl

/-- Witness for C2: on the empty message no signature matches and the
classifier returns the fallback pair with non-empty components. -/
theorem classifier_total_with_fallback_witness :
    ((classifyFailure "").1 ≠ "" ∧ (classifyFailure "").2 ≠ "")
    ∧ classifyFailure "" = ("Belirtilmeyen hata", "Log kayıtlarını inceleyin") :=
  ⟨(classifier_total_with_fallback "").1,
   (classifier_total_with_fallback "").2 (by decide)⟩

/-- C3: a document without any status keyword parses to the empty record
list and a zero summary, delivered as a normal value (the pipeline returns
`Except.ok`, never an error). -/
theorem no_keyword_empty_summary (filename : String) (lines : List String)
    (h : ∀ line ∈ lines, containsStatusKeyword line = false) :
    parseReport lines = []
    ∧ analyzeReport filename lines =
        ({ filename := filename, total_tests := 0,
           passed_tests := 0, failed_tests := 0 }, [])
    ∧ processDocument filename ⟨some lines⟩ =
        Except.ok ({ filename := filename, total_tests := 0,
                     passed_tests := 0, failed_tests := 0 }, []) := by
  have hnil : parseReport lines = [] := parseLines_eq_nil lines h 1
  refine ⟨hnil, ?_, ?_⟩
  · simp [analyzeReport, hnil, enrichAll, summarize]
  · simp [processDocument, extractText, analyzeReport, hnil, enrichAll, summarize]

/-- Witness for C3: a concrete keyword-free two-line document yields the
empty record list and the zero summary as a normal value. -/
theorem no_keyword_empty_summary_witness :
    parseReport ["hello", "dünya"] = []
    ∧ analyzeReport "a.pdf" ["hello", "dünya"] =
        ({ filename := "a.pdf", total_tests := 0,
           passed_tests := 0, failed_tests := 0 }, [])
    ∧ processDocument "a.pdf" ⟨some ["hello", "dünya"]⟩ =
        Except.ok ({ filename := "a.pdf", total_tests := 0,
                     passed_tests := 0, failed_tests := 0 }, []) :=
  no_keyword_empty_summary "a.pdf" ["hello", "dünya"] (by decide)

/-- C4: every record the pipeline produces has status PASS or FAIL, and a
PASS record has error_message, failure_reason and suggested_fix all null. -/
theorem record_status_partition (filename : String) (lines : List String)
    (r : TestRecord) (h : r ∈ (analyzeReport filename lines).2) :
    (r.status = Status.PASS ∨ r.status = Status.FAIL)
    ∧ (r.status = Status.PASS →
        r.error_message = none ∧ r.failure_reason = none ∧ r.suggested_fix = none) := by
  constructor
  · cases r.status
    · exact Or.inl rfl
    · exact Or.inr rfl
  · intro hpass
    simp [analyzeReport, enrichAll] at h
    obtain ⟨r0, hr0, hmap⟩ := h
    have hst : r0.status = Status.PASS := by
      have := enrichRecord_status r0
      rw [hmap, hpass] at this
      exact this.symm
    have hr0fields :=
      parseLines_pass_fields lines 1 r0 hr0 hst
    have henr : enrichRecord r0 = r0 := by
      unfold enrichRecord
      rw [hst]
    rw [← hmap, henr]
    exact hr0fields

/-- Witness for C4: the record parsed from the line "OK" is a PASS record
with all three failure fields null. -/
theorem record_status_partition_witness :
    ((⟨"Test 1", Status.PASS, none, none, none⟩ : TestRecord).status = Status.PASS
      ∨ (⟨"Test 1", Status.PASS, none, none, none⟩ : TestRecord).status = Status.FAIL)
    ∧ ((⟨"Test 1", Status.PASS, none, none, none⟩ : TestRecord).status = Status.PASS →
        (⟨"Test 1", Status.PASS, none, none, none⟩ : TestRecord).error_message = none
        ∧ (⟨"Test 1", Status.PASS, none, none, none⟩ : TestRecord).failure_reason = none
        ∧ (⟨"Test 1", Status.PASS, none, none, none⟩ : TestRecord).suggested_fix = none) :=
  record_status_partition "a.pdf" ["OK"]
    ⟨"Test 1", Status.PASS, none, none, none⟩ (by decide)

/-- C5: deleting a report removes the report row and exactly the
test-result rows whose report_id references it, and leaves every other
report row and test-result row in place: a row survives the deletion
precisely when it does not belong to the deleted report. -/
theorem deleteReport_cascade_frame (db : Database) (rid : Nat) :
    (∀ r : ReportRow,
      r ∈ (deleteReport db rid).reports ↔ (r ∈ db.reports ∧ r.id ≠ rid))
    ∧ (∀ t : TestResultRow,
        t ∈ (deleteReport db rid).test_results ↔
          (t ∈ db.test_results ∧ t.report_id ≠ rid)) := by
  constructor
  · intro r
    simp [deleteReport, List.mem_filter]
  · intro t
    simp [deleteReport, List.mem_filter]

/-- Witness for C5: in a concrete two-report store, deleting report 1
removes it and its child row while report 2 and its child row survive. -/
theorem deleteReport_cascade_frame_witness :
    ((⟨2, "b.pdf", 1, 1, 0⟩ : ReportRow) ∈
      (deleteReport
        ⟨[⟨1, "a.pdf", 1, 0, 1⟩, ⟨2, "b.pdf", 1, 1, 0⟩],
         [⟨10, 1, "t1", Status.FAIL, some "x", none, none⟩,
          ⟨11, 2, "t2", Status.PASS, none, none, none⟩]⟩ 1).reports)
    ∧ ¬((⟨1, "a.pdf", 1, 0, 1⟩ : ReportRow) ∈
      (deleteReport
        ⟨[⟨1, "a.pdf", 1, 0, 1⟩, ⟨2, "b.pdf", 1, 1, 0⟩],
         [⟨10, 1, "t1", Status.FAIL, some "x", none, none⟩,
          ⟨11, 2, "t2", Status.PASS, none, none, none⟩]⟩ 1).reports)
    ∧ ((⟨11, 2, "t2", Status.PASS, none, none, none⟩ : TestResultRow) ∈
      (deleteReport
        ⟨[⟨1, "a.pdf", 1, 0, 1⟩, ⟨2, "b.pdf", 1, 1, 0⟩],
         [⟨10, 1, "t1", Status.FAIL, some "x", none, none⟩,
          ⟨11, 2, "t2", Status.PASS, none, none, none⟩]⟩ 1).test_results)
    ∧ ¬((⟨10, 1, "t1", Status.FAIL, some "x", none, none⟩ : TestResultRow) ∈
      (deleteReport
        ⟨[⟨1, "a.pdf", 1, 0, 1⟩, ⟨2, "b.pdf", 1, 1, 0⟩],
         [⟨10, 1, "t1", Status.FAIL, some "x", none, none⟩,
          ⟨11, 2, "t2", Status.PASS, none, none, none⟩]⟩ 1).test_results) := by
  refine ⟨?_, ?_, ?_, ?_⟩
  · exact ((deleteReport_cascade_frame _ 1).1 _).mpr ⟨by decide, by decide⟩
  · intro hmem
    exact (((deleteReport_cascade_frame _ 1).1 _).mp hmem).2 rfl
  · exact ((deleteReport_cascade_frame _ 1).2 _).mpr ⟨by decide, by decide⟩
  · intro hmem
    exact (((deleteReport_cascade_frame _ 1).2 _).mp hmem).2 rfl

/-- C6: the pipeline fails with the typed error NO_TEXT_LAYER exactly when
the document has no text layer, and on any document with a text layer it
returns a normal `Except.ok` value — the two outcomes can never be
conflated. -/
theorem extraction_error_distinct (filename : String) (doc : PDFDocument) :
    (processDocument filename doc = Except.error ExtractionError.NO_TEXT_LAYER ↔
      doc.textLayer = none)
    ∧ (∀ lines : List String, doc.textLayer = some lines →
        processDocument filename doc = Except.ok (analyzeReport filename lines)) := by
  constructor
  · constructor
    · intro h
      cases hdoc : doc.textLayer with
      | none => rfl
      | some lines => simp [processDocument, extractText, hdoc] at h
    · intro h
      simp [processDocument, extractText, h]
  · intro lines hl
    simp [processDocument, extractText, hl]

/-- Witness for C6: a document without a text layer yields the typed error
and a one-line text document yields a normal value. -/
theorem extraction_error_distinct_witness :
    processDocument "a.pdf" ⟨none⟩ = Except.error ExtractionError.NO_TEXT_LAYER
    ∧ processDocument "a.pdf" ⟨some ["hello"]⟩ =
        Except.ok (analyzeReport "a.pdf" ["hello"]) :=
  ⟨(extraction_error_distinct "a.pdf" ⟨none⟩).1.mpr rfl,
   (extraction_error_distinct "a.pdf" ⟨some ["hello"]⟩).2 ["hello"] rfl⟩

/-- C7: a line containing both a PASS-class and a FAIL-class keyword
produces a record classified FAIL. -/
theorem ambiguous_line_classified_fail (line : String) (rest : List String)
    (counter : Nat) (_hp : hasPassKeyword line = true)
    (hf : hasFailKeyword line = true) :
    ∃ r : TestRecord,
      parseLines (line :: rest) counter = r :: parseLines rest (counter + 1)
      ∧ r.status = Status.FAIL := by
  have heq : parseLines (line :: rest) counter =
      { name := extractName line counter, status := Status.FAIL,
        error_message := some (if (errorRemainder line).isEmpty then
          (firstNonEmpty rest).getD "" else errorRemainder line),
        failure_reason := none, suggested_fix := none }
        :: parseLines rest (counter + 1) := by
    simp [parseLines, hf]
  exact ⟨_, heq, rfl⟩

/-- Witness for C7: the ambiguous line "Test X PASSED with ERROR logged"
contains keywords of both classes and is classified FAIL. -/
theorem ambiguous_line_classified_fail_witness :
    hasPassKeyword "Test X PASSED with ERROR logged" = true
    ∧ hasFailKeyword "Test X PASSED with ERROR logged" = true
    ∧ ∃ r : TestRecord,
        parseLines ["Test X PASSED with ERROR logged"] 1 = r :: parseLines [] 2
        ∧ r.status = Status.FAIL :=
  ⟨by decide, by decide,
   ambiguous_line_classified_fail "Test X PASSED with ERROR logged" [] 1
     (by decide) (by decide)⟩

/-- C9 counterexample: a non-numeric count field does not coerce to 0 — it
coerces to NaN, which fails every comparison, so a report with
failed_tests = "abc" and total_tests = 5 is labelled "Analiz Bekleniyor",
while the same report with failed_tests = 0 is labelled "Başarılı". -/
theorem status_label_coercion_counterexample :
    toNumber (JSVal.str "abc") ≠ some (0 : Int)
    ∧ getReportStatusLabel
        (some ⟨JSVal.undef, JSVal.str "abc", JSVal.num 5⟩) = "Analiz Bekleniyor"
    ∧ getReportStatusLabel
        (some ⟨JSVal.undef, JSVal.num 0, JSVal.num 5⟩) = "Başarılı" := by
  refine ⟨by decide, rfl, rfl⟩

/-- C9 (amended): getReportStatusLabel is total over arbitrary report
objects and always returns one of the four labels; missing/null fields
coerce to 0 while non-numeric fields coerce to NaN (failing every
comparison); it returns "Başarılı" whenever failed_tests evaluates to 0 and
total_tests to a positive number, even when passed_tests is 0. -/
theorem status_label_total (report : Option JSReport) :
    (getReportStatusLabel report = "Başarılı"
      ∨ getReportStatusLabel report = "Başarısız"
      ∨ getReportStatusLabel report = "Kısmi Başarı"
      ∨ getReportStatusLabel report = "Analiz Bekleniyor")
    ∧ (∀ t : Int, failedNumber report = some 0 → totalNumber report = some t →
        0 < t → getReportStatusLabel report = "Başarılı") := by
  constructor
  · simp only [getReportStatusLabel]
    split_ifs <;> simp
  · intro t hf ht hpos
    unfold getReportStatusLabel
    have h1 : jsEqZero (failedNumber report) = true := by
      simp [jsEqZero, hf]
    have h2 : jsPositive (totalNumber report) = true := by
      simp [jsPositive, ht, hpos]
    simp [h1, h2]

/-- Witness for C9: a report with passed_tests = 0, failed_tests = 0 and
total_tests = 3 is labelled "Başarılı". -/
theorem status_label_total_witness :
    getReportStatusLabel (some ⟨JSVal.num 0, JSVal.num 0, JSVal.num 3⟩) = "Başarılı" :=
  (status_label_total (some ⟨JSVal.num 0, JSVal.num 0, JSVal.num 3⟩)).2 3 rfl rfl
    (by decide)

/-- C10: sanitizeFiles either rejects the selection with an error message
and an empty file list, or accepts it unchanged with a null error; it
accepts exactly when the selection is non-empty, all files are PDFs, and at
most MAX_FILES (2) files are selected — so an accepted submission never
holds more than 2 files and never a non-PDF file. -/
theorem sanitizeFiles_spec (fileList : Option (List BrowserFile)) :
    ((∃ msg : String, (sanitizeFiles fileList).error = some msg
        ∧ (sanitizeFiles fileList).files = [])
      ∨ ((sanitizeFiles fileList).error = none
        ∧ (sanitizeFiles fileList).files = fileList.getD []))
    ∧ ((sanitizeFiles fileList).error = none ↔
        (fileList.getD [] ≠ []
          ∧ (∀ f ∈ fileList.getD [], f.type = "application/pdf")
          ∧ (fileList.getD []).length ≤ MAX_FILES))
    ∧ (sanitizeFiles fileList).files.length ≤ MAX_FILES
    ∧ (∀ f ∈ (sanitizeFiles fileList).files, f.type = "application/pdf") := by
  unfold sanitizeFiles
  by_cases h0 : (fileList.getD []).isEmpty
  · rw [if_pos h0]
    refine ⟨Or.inl ⟨_, rfl, rfl⟩, ?_, by simp [MAX_FILES], by simp⟩
    simp only [List.isEmpty_iff] at h0
    simp [h0, MAX_FILES]
  · rw [if_neg h0]
    by_cases h1 : ((fileList.getD []).filter
        (fun f => f.type != "application/pdf")).isEmpty
    · have hall : ∀ f ∈ fileList.getD [], f.type = "application/pdf" := by
        intro f hf
        by_contra hne
        have : f ∈ (fileList.getD []).filter
            (fun f => f.type != "application/pdf") :=
          List.mem_filter.mpr ⟨hf, by simp [hne]⟩
        rw [List.isEmpty_iff.mp h1] at this
        simp at this
      rw [if_neg (by simp [h1])]
      by_cases h2 : (fileList.getD []).length > MAX_FILES
      · rw [if_pos h2]
        refine ⟨Or.inl ⟨_, rfl, rfl⟩, ?_, by simp [MAX_FILES], by simp⟩
        simp only [List.isEmpty_iff] at h0
        constructor
        · intro hc; cases hc
        · intro ⟨_, _, hlen⟩; omega
      · rw [if_neg h2]
        refine ⟨Or.inr ⟨rfl, rfl⟩,
          ?_, by show (fileList.getD []).length ≤ MAX_FILES; omega, hall⟩
        simp only [List.isEmpty_iff] at h0
        exact ⟨fun _ => ⟨h0, hall, by omega⟩, fun _ => rfl⟩
    · rw [if_pos (by simp [h1])]
      refine ⟨Or.inl ⟨_, rfl, rfl⟩, ?_, by simp [MAX_FILES], by simp⟩
      constructor
      · intro hc; cases hc
      · intro ⟨_, hall, _⟩
        have hne : (fileList.getD []).filter
            (fun f => f.type != "application/pdf") ≠ [] := by
          intro hEq
          rw [hEq] at h1
          exact h1 rfl
        obtain ⟨f, hf⟩ := List.exists_mem_of_ne_nil _ hne
        have hmem := List.mem_filter.mp hf
        have := hall f hmem.1
        simp [this] at hmem


/-- Witness for C10: a single PDF selection is accepted unchanged with a
null error. -/
theorem sanitizeFiles_spec_witness :
    (sanitizeFiles (some [⟨"a.pdf", "application/pdf"⟩])).error = none
    ∧ (sanitizeFiles (some [⟨"a.pdf", "application/pdf"⟩])).files
        = [⟨"a.pdf", "application/pdf"⟩] :=
  ⟨(sanitizeFiles_spec (some [⟨"a.pdf", "application/pdf"⟩])).2.1.mpr
      ⟨by decide, by decide, by decide⟩,
   by
    rcases (sanitizeFiles_spec (some [⟨"a.pdf", "application/pdf"⟩])).1 with
      ⟨msg, hmsg, _⟩ | h
    · have hnone := (sanitizeFiles_spec
        (some [⟨"a.pdf", "application/pdf"⟩])).2.1.mpr
          ⟨by decide, by decide, by decide⟩
      rw [hmsg] at hnone
      exact Option.noConfusion hnone
    · exact h.2⟩

end TestReportAnalyzer
